import Mathlib

/-!
# Formal model of the `hometheater` IMDb client (`src/hometheater/imdb.py`)

A shallow embedding of the pure logic of the scraper: the fuzzy match
scorer `_match_score`, the search selectors (`search_movie`, `search_tv`,
`search_person`) and the detail extractors (`get_movie`, `get_show`,
`get_season`, `get_person`).  The HTTP transport and the HTML parser are
out of scope (per the design document); a fetched page is modelled as a
record of the node values the Python code actually queries from the
parsed tree.  Python exceptions that the code catches are modelled by
`Option`: a function returns `none` exactly where the Python returns
`None` (either explicitly or because a raised exception is caught by the
enclosing `except` block and converted to a skip or a `None`).
Python `float` arithmetic in the scorer is modelled over `ℚ`; the only
arithmetic performed is one exact division and an addition of 20, so the
rational model is observationally faithful for the bounds proved here.
-/

/-- Python `str.lower()` (character-wise case folding; the titles and
queries handled by the scraper are ASCII, where `Char.toLower` agrees
with Python). -/
def pyLower (s : String) : String := ⟨s.data.map Char.toLower⟩

/-- Split a character list at every separator character, keeping empty
pieces — the semantics of Python `str.split(sep)` with an explicit
separator. -/
def splitChars (p : Char → Bool) : List Char → List (List Char)
  | [] => [[]]
  | c :: rest =>
    if p c then [] :: splitChars p rest
    else match splitChars p rest with
      | [] => [[c]]
      | w :: ws => (c :: w) :: ws

/-- Python `str.strip()`: remove leading and trailing whitespace. -/
def trimChars (l : List Char) : List Char :=
  ((l.dropWhile Char.isWhitespace).reverse.dropWhile Char.isWhitespace).reverse

/-- Python `str.strip()` on strings. -/
def pyStrip (s : String) : String := ⟨trimChars s.data⟩

/-- Python `str.split()` with no argument: whitespace-separated words,
empty pieces dropped. -/
def pyWords (s : String) : List String :=
  ((splitChars Char.isWhitespace s.data).map String.mk).filter (fun w => w ≠ "")

/-- The stop-word set `common_words` of `_match_score` (imdb.py line 25). -/
def commonWords : List String := ["the", "a", "an", "and", "&"]

/-- Python `needle in haystack` on lists of characters: `needle` occurs
contiguously inside `haystack`. -/
def containsSub (hay need : List Char) : Bool :=
  match hay with
  | [] => need.isEmpty
  | _ :: rest => need.isPrefixOf hay || containsSub rest need

/-- Python `needle in haystack` for strings (substring test). -/
def strContains (hay need : String) : Bool :=
  containsSub hay.data need.data

/-- The non-stop-words of a string, collected into a set (Python
`set(word for word in s.split() if word not in common_words)`). -/
def filteredWords (s : String) : Finset String :=
  ((pyWords s).filter (fun w => decide (w ∉ commonWords))).toFinset

/-- Model of `IMDb._match_score` (imdb.py lines 15-43).  Returns `none` where the
Python raises `ZeroDivisionError` (division by the filtered query-word
count); every other path returns `some` score. -/
def match_score (query title : String) : Option ℚ :=
  let q := pyLower query
  let t := pyLower title
  if q = t then some 100
  else
    let qw := filteredWords q
    let matching := qw ∩ filteredWords t
    if matching = ∅ then some 0
    else if qw.card = 0 then none
    else
      let pct : ℚ := ((matching.card : ℚ) / (qw.card : ℚ)) * 100
      if (pyWords q).all (fun w => strContains t w) then some (pct + 20)
      else some pct

/-- One step of a stable sort: insert `c` in front of the first element
`d` with `le c d`; elements `c` may not precede are kept in front.  With
`le c d := key d ≤ key c` this realises the stable Python
`list.sort(key=..., reverse=True)`, with `le c d := key c ≤ key d` the
stable ascending `sorted(..., key=...)`. -/
def insertStable {γ : Type} (le : γ → γ → Bool) (c : γ) : List γ → List γ
  | [] => [c]
  | d :: ds => if le c d then c :: d :: ds else d :: insertStable le c ds

/-- Stable insertion sort; observationally equal to the stable Timsort
of Python for the comparator in use. -/
def stableSortBy {γ : Type} (le : γ → γ → Bool) : List γ → List γ
  | [] => []
  | c :: cs => insertStable le c (stableSortBy le cs)

/-- The accumulator loop shared by all search functions: walk the raw
result nodes in document order, extract a candidate from each (`f x =
none` models both a failed extraction and a caught per-node exception),
apply the acceptance test `keep`, and append survivors to `results`. -/
def scanLoop {σ γ : Type} (f : σ → Option γ) (keep : γ → Bool) :
    List σ → List γ → List γ
  | [], acc => acc
  | x :: rest, acc =>
    match f x with
    | none => scanLoop f keep rest acc
    | some c =>
      if keep c then scanLoop f keep rest (acc ++ [c]) else scanLoop f keep rest acc

/-- The shared shape of `search_movie` and `search_person` (imdb.py
lines 45-85 and 322-360): run the extraction loop with the acceptance
threshold of 70, sort the survivors stably by descending match score,
and return the first five — or `None` when no candidate passed. -/
def selectorRun {σ γ : Type} (f : σ → Option γ) (key : γ → ℚ) (items : List σ) :
    Option (List γ) :=
  let results := scanLoop f (fun c => decide (70 ≤ key c)) items []
  let sorted := stableSortBy (fun a b => decide (key b ≤ key a)) results
  if sorted.isEmpty then none else some (sorted.take 5)

/-- The candidates that are successfully extracted and reach the
threshold, in document order. -/
def passing {σ γ : Type} (f : σ → Option γ) (key : γ → ℚ) (items : List σ) : List γ :=
  (items.filterMap f).filter (fun c => decide (70 ≤ key c))

/-- Value of `self.base_url` (imdb.py line 9). -/
def baseUrl : String := "https://www.imdb.com"

/-- One attempt of the search for `/pat/(pre\d+)/` at the head
of `cs`: the pattern text `pat ++ pre`, then at least one digit, then a
slash; the returned match group is `pre` plus the digits. -/
def idHere (pat pre : List Char) (cs : List Char) : Option String :=
  if (pat ++ pre).isPrefixOf cs then
    let rest := cs.drop (pat.length + pre.length)
    let ds := rest.takeWhile Char.isDigit
    if ds.isEmpty then none
    else match rest.drop ds.length with
      | '/' :: _ => some ⟨pre ++ ds⟩
      | _ => none
  else none

/-- Model of `re.search` over the whole link: first position where the identifier
pattern matches. -/
def idSearch (pat pre : List Char) : List Char → Option String
  | [] => none
  | c :: rest =>
    match idHere pat pre (c :: rest) with
    | some s => some s
    | none => idSearch pat pre rest

/-- Model of `re.search` for the pattern `/title/(tt\d+)/` on the link
(imdb.py lines 59 and 101). -/
def titleIdOf (link : String) : Option String :=
  idSearch "/title/".data "tt".data link.data

/-- Model of `re.search` for the pattern `/name/(nm\d+)/` on the link
(imdb.py line 336). -/
def nameIdOf (link : String) : Option String :=
  idSearch "/name/".data "nm".data link.data

/-- The title element of one search-result node: its `href` attribute
(`get` returns the attribute or `None`) and its text. -/
structure TitleElem where
  href : Option String
  text : String
deriving DecidableEq

/-- One `.ipc-metadata-list-summary-item` node of a search-results page,
reduced to the three sub-elements the Python code queries: the title
element, the text of the year element, and the text of the subtext element
(`none` models a missing element). -/
structure SearchItem where
  titleElem : Option TitleElem
  yearElem : Option String
  subtextElem : Option String
deriving DecidableEq

/-- A movie search result dict (imdb.py lines 72-78). -/
structure MovieCandidate where
  movieID : String
  title : String
  year : String
  url : String
  match_score : ℚ
deriving DecidableEq

/-- A TV search result dict (imdb.py lines 108-113); note: no
`match_score` field is ever computed for TV results. -/
structure TvCandidate where
  seriesID : String
  title : String
  year : String
  url : String
deriving DecidableEq

/-- A person search result dict (imdb.py lines 347-353). -/
structure PersonCandidate where
  personID : String
  name : String
  profession : String
  url : String
  match_score : ℚ
deriving DecidableEq

/-- Extraction of one movie candidate from one raw node (imdb.py lines
53-78, without the threshold test): missing title element, unmatched
identifier pattern, and a scorer exception each drop the node. -/
def movieItemCandidate (query : String) (item : SearchItem) : Option MovieCandidate :=
  match item.titleElem with
  | none => none
  | some te =>
    let link := te.href.getD ""
    match titleIdOf link with
    | none => none
    | some mid =>
      match match_score query te.text with
      | none => none
      | some sc =>
        some { movieID := mid, title := te.text, year := item.yearElem.getD "",
               url := baseUrl ++ link, match_score := sc }

/-- Extraction of one TV candidate (imdb.py lines 95-113): same
identifier pattern as movies, no score, no threshold. -/
def tvItemCandidate (item : SearchItem) : Option TvCandidate :=
  match item.titleElem with
  | none => none
  | some te =>
    let link := te.href.getD ""
    match titleIdOf link with
    | none => none
    | some sid =>
      some { seriesID := sid, title := te.text, year := item.yearElem.getD "",
             url := baseUrl ++ link }

/-- Extraction of one person candidate (imdb.py lines 330-353, without
the threshold test). -/
def personItemCandidate (query : String) (item : SearchItem) : Option PersonCandidate :=
  match item.titleElem with
  | none => none
  | some te =>
    let link := te.href.getD ""
    match nameIdOf link with
    | none => none
    | some pid =>
      match match_score query te.text with
      | none => none
      | some sc =>
        some { personID := pid, name := te.text, profession := item.subtextElem.getD "",
               url := baseUrl ++ link, match_score := sc }

/-- Model of `IMDb.search_movie` (imdb.py lines 45-85), as a function of the
extracted search-result nodes. -/
def search_movie (query : String) (items : List SearchItem) : Option (List MovieCandidate) :=
  selectorRun (movieItemCandidate query) MovieCandidate.match_score items

/-- Model of `IMDb.search_tv` (imdb.py lines 87-118): the same accumulator loop,
but with no threshold, no sort and no truncation. -/
def search_tv (items : List SearchItem) : List TvCandidate :=
  scanLoop tvItemCandidate (fun _ => true) items []

/-- Model of `IMDb.search_person` (imdb.py lines 322-360). -/
def search_person (query : String) (items : List SearchItem) : Option (List PersonCandidate) :=
  selectorRun (personItemCandidate query) PersonCandidate.match_score items

/-- Movie candidates that extract successfully and reach the threshold
of 70, in document order. -/
def moviePassing (query : String) (items : List SearchItem) : List MovieCandidate :=
  passing (movieItemCandidate query) MovieCandidate.match_score items

/-- Person candidates that extract successfully and reach the threshold
of 70, in document order. -/
def personPassing (query : String) (items : List SearchItem) : List PersonCandidate :=
  passing (personItemCandidate query) PersonCandidate.match_score items

/-- A two-node search-results page: one movie link and one person link,
both titled with the demo query. -/
def demoSearchItems : List SearchItem :=
  [ { titleElem := some { href := some "/title/tt0076759/", text := "George Lucas" },
      yearElem := some "1977", subtextElem := none },
    { titleElem := some { href := some "/name/nm0000184/", text := "George Lucas" },
      yearElem := none, subtextElem := some "Director" } ]

/-- The movie candidate extracted from the first demo node. -/
def demoMovieCandidate : MovieCandidate :=
  { movieID := "tt0076759", title := "George Lucas", year := "1977",
    url := "https://www.imdb.com/title/tt0076759/", match_score := 100 }

/-- The person candidate extracted from the second demo node. -/
def demoPersonCandidate : PersonCandidate :=
  { personID := "nm0000184", name := "George Lucas", profession := "Director",
    url := "https://www.imdb.com/name/nm0000184/", match_score := 100 }

/-- One movie search-result node with the given identifier digit and
the demo query as its title. -/
def mkMovieItem (idText : String) : SearchItem :=
  { titleElem := some ⟨some ("/title/tt000000" ++ idText ++ "/"), "George Lucas"⟩,
    yearElem := some "1977", subtextElem := none }

/-- A six-node results page on which all six candidates pass the
threshold (each scores 100 by exact match). -/
def sixMovieItems : List SearchItem :=
  [mkMovieItem "1", mkMovieItem "2", mkMovieItem "3", mkMovieItem "4",
   mkMovieItem "5", mkMovieItem "6"]

/-- The candidate extracted from one node of `sixMovieItems`. -/
def mkMovieCandidate (idText : String) : MovieCandidate :=
  { movieID := "tt000000" ++ idText, title := "George Lucas", year := "1977",
    url := "https://www.imdb.com/title/tt000000" ++ idText ++ "/", match_score := 100 }

/-- The first five of the six passing candidates, in document order
(all scores tie at 100, so the stable sort keeps document order). -/
def sixTopFive : List MovieCandidate :=
  [mkMovieCandidate "1", mkMovieCandidate "2", mkMovieCandidate "3",
   mkMovieCandidate "4", mkMovieCandidate "5"]

/-- Python `s[:n]` on strings. -/
def pyTakeChars (s : String) (n : ℕ) : String := ⟨s.data.take n⟩

/-- The embedded `application/ld+json` block of a fetched page: the
script tag may be absent, present but with content that `json.loads`
rejects, or parsed into structured data. -/
inductive LdJson (α : Type) where
  | missing : LdJson α
  | malformed : LdJson α
  | parsed : α → LdJson α
deriving DecidableEq

/-- One person object of the structured block; `name` may be absent
(a `get` with the empty-string default supplies the fallback). -/
structure PersonEntry where
  name : Option String
deriving DecidableEq

/-- An `actor`/`director`/`creator` field of the structured block: in
the source it is absent, a single object, or a list of objects; the
Python coerces all three to a list. -/
inductive PeopleField where
  | absent : PeopleField
  | single : PersonEntry → PeopleField
  | many : List PersonEntry → PeopleField
deriving DecidableEq

/-- The list-coercion `if not isinstance(x, list): x = [x]` applied to a
`data.get(role, [])` value. -/
def peopleList : PeopleField → List PersonEntry
  | .absent => []
  | .single p => [p]
  | .many ps => ps

/-- The `aggregateRating` sub-dictionary; `ratingValue` may be absent. -/
structure RatingBlock where
  ratingValue : Option ℚ
deriving DecidableEq

/-- The structured metadata of a title page, as the Python reads it. -/
structure TitleData where
  name : Option String
  description : Option String
  image : Option String
  aggregateRating : Option RatingBlock
  actor : PeopleField
  director : PeopleField
  creator : PeopleField
  datePublished : Option String
  genre : Option (List String)
deriving DecidableEq

/-- Model of the chained lookup of `aggregateRating` then `ratingValue`
with defaults (imdb.py lines 181 and 250). -/
def ratingOf (d : TitleData) : Option ℚ :=
  match d.aggregateRating with
  | none => none
  | some rb => rb.ratingValue

/-- A movie or show detail page, reduced to the nodes the Python
queries.  Each entry of `castNodes` / `principalCreditNodes` is the
outcome of the `img` lookup on one matched card: `none` when the card
holds no image element, otherwise the optional `src` attribute of the image.
`seasonHeader` is the text of the episodes-header span, if present. -/
structure TitlePage where
  ldJson : LdJson TitleData
  plotXl : Option String
  castNodes : List (Option (Option String))
  principalCreditNodes : List (Option (Option String))
  seasonHeader : Option String
deriving DecidableEq

/-- A reconciled credited person: name from the structured block, image
from the positionally aligned markup card. -/
structure PersonRef where
  name : String
  image : Option String
deriving DecidableEq

/-- The movie dict returned by `get_movie` (imdb.py lines 177-186);
`plot_outline` models the two-word plot key, `cover_url` the
full-size-cover key. -/
structure MovieRecord where
  title : String
  plot_outline : String
  cover_url : String
  rating : Option ℚ
  directors : List PersonRef
  cast : List PersonRef
  year : String
  genres : List String
deriving DecidableEq

/-- The show dict returned by `get_show` (imdb.py lines 246-256);
`num_seasons` models the number-of-seasons key. -/
structure ShowRecord where
  title : String
  plot_outline : String
  cover_url : String
  rating : Option ℚ
  creators : List PersonRef
  cast : List PersonRef
  year : String
  genres : List String
  num_seasons : ℕ
deriving DecidableEq

/-- The image extracted for index `i`: `None` when there are fewer
markup cards than `i + 1`, when card `i` has no image element, or when
its image has no `src` attribute. -/
def imgAt (nodes : List (Option (Option String))) (i : ℕ) : Option String :=
  match nodes[i]? with
  | none => none
  | some none => none
  | some (some attr) => attr

/-- The `for i, person in enumerate(...)` loops of `get_movie` and
`get_show`: pair the `i`-th structured name with the `i`-th markup
image. -/
def alignPeople (nodes : List (Option (Option String))) : ℕ → List PersonEntry → List PersonRef
  | _, [] => []
  | i, p :: ps => { name := p.name.getD "", image := imgAt nodes i } :: alignPeople nodes (i + 1) ps

/-- The first maximal digit run of a character list, if any — the
`re.search` for the pattern `\d+`. -/
def firstDigitRun : List Char → Option (List Char)
  | [] => none
  | c :: rest =>
    if c.isDigit then some (c :: rest.takeWhile Char.isDigit) else firstDigitRun rest

/-- Decimal value of a digit run (`int(...)` on a `\d+` match). -/
def digitsToNat (ds : List Char) : ℕ :=
  ds.foldl (fun n c => n * 10 + (c.toNat - '0'.toNat)) 0

/-- Model of `int` applied to the first `\d+` match of the text, or
`none` when the text holds
no digit (where the Python raises `AttributeError` on `None.group()`). -/
def firstInt (s : String) : Option ℕ := (firstDigitRun s.data).map digitsToNat

/-- Model of `IMDb.get_movie` (imdb.py lines 120-189) as a function of the
fetched page. -/
def get_movie (p : TitlePage) : Option MovieRecord :=
  match p.ldJson with
  | .missing => none
  | .malformed => none
  | .parsed d =>
    let plot :=
      match p.plotXl with
      | some s => if pyStrip s ≠ "" then pyStrip s else d.description.getD ""
      | none => d.description.getD ""
    some { title := d.name.getD "",
           plot_outline := plot,
           cover_url := d.image.getD "",
           rating := ratingOf d,
           directors := alignPeople p.principalCreditNodes 0 (peopleList d.director),
           cast := alignPeople p.castNodes 0 ((peopleList d.actor).take 5),
           year := pyTakeChars (d.datePublished.getD "") 4,
           genres := d.genre.getD [] }

/-- Model of `IMDb.get_show` (imdb.py lines 191-259).  Unlike `get_movie`, the
plot-xl fallback tests only element presence (line 206), and a season
header without a digit raises inside the `try` (line 210), which the
handler turns into `None` for the whole call. -/
def get_show (p : TitlePage) : Option ShowRecord :=
  match p.ldJson with
  | .missing => none
  | .malformed => none
  | .parsed d =>
    let plot :=
      match p.plotXl with
      | some s => pyStrip s
      | none => d.description.getD ""
    let build : ℕ → ShowRecord := fun ns =>
      { title := d.name.getD "",
        plot_outline := plot,
        cover_url := d.image.getD "",
        rating := ratingOf d,
        creators := alignPeople p.principalCreditNodes 0 (peopleList d.creator),
        cast := alignPeople p.castNodes 0 ((peopleList d.actor).take 10),
        year := pyTakeChars (d.datePublished.getD "") 4,
        genres := d.genre.getD [],
        num_seasons := ns }
    match p.seasonHeader with
    | none => some (build 0)
    | some txt =>
      match firstInt txt with
      | none => none
      | some k => some (build k)

/-- The structured metadata of a person page. -/
structure PersonData where
  name : Option String
  description : Option String
  image : Option String
  birthDate : Option String
  birthPlace : Option String
  jobTitle : Option String
deriving DecidableEq

/-- A person detail page: the structured block, the text of the
biography element, and the headshot element (`some attr` when it exists,
with `attr` its optional `src`). -/
structure PersonPage where
  ldJson : LdJson PersonData
  bioElem : Option String
  headshotElem : Option (Option String)
deriving DecidableEq

/-- The person dict returned by `get_person` (imdb.py lines 383-390);
`headshot` is `none` when a present headshot element lacks `src`. -/
structure PersonRecord where
  name : String
  bio : String
  headshot : Option String
  birth_date : String
  birth_place : String
  profession : String
deriving DecidableEq

/-- Model of `IMDb.get_person` (imdb.py lines 362-393). -/
def get_person (p : PersonPage) : Option PersonRecord :=
  match p.ldJson with
  | .missing => none
  | .malformed => none
  | .parsed d =>
    some { name := d.name.getD "",
           bio := match p.bioElem with
                  | some s => pyStrip s
                  | none => d.description.getD "",
           headshot := match p.headshotElem with
                       | some attr => attr
                       | none => some (d.image.getD ""),
           birth_date := d.birthDate.getD "",
           birth_place := d.birthPlace.getD "",
           profession := d.jobTitle.getD "" }

/-- One `div.episode-item-wrapper` fragment, reduced to the texts of
the four sub-elements the Python queries (`none` = element absent). -/
structure EpisodeNode where
  titleText : Option String
  plotText : Option String
  airDateText : Option String
  ratingText : Option String
deriving DecidableEq

/-- One episode dict (imdb.py lines 304-311).  The source emits both a
title key and an episode-title key. -/
structure Episode where
  title : String
  episode_title : String
  episode_number : ℕ
  plot : String
  original_air_date : String
  rating : Option String
deriving DecidableEq

/-- An episodes page.  It carries a structured block like every page,
but `get_season` (imdb.py lines 261-320) never queries it. -/
structure SeasonPage where
  ldJson : LdJson Unit
  episodeNodes : List EpisodeNode
deriving DecidableEq

/-- The dict returned by `get_season` (imdb.py lines 317-320). -/
structure SeasonRecord where
  season_number : ℕ
  episodes : List Episode
deriving DecidableEq

/-- Model of the search for the pattern `Ep(\d+)` tried at the head of
`cs`. -/
def epNumHere (cs : List Char) : Option ℕ :=
  if ['E', 'p'].isPrefixOf cs then
    let ds := (cs.drop 2).takeWhile Char.isDigit
    if ds.isEmpty then none else some (digitsToNat ds)
  else none

/-- Model of the search for the pattern `Ep(\d+)` over the whole string,
as the decimal value of the digits of the first match. -/
def findEpNum : List Char → Option ℕ
  | [] => none
  | c :: rest =>
    match epNumHere (c :: rest) with
    | some n => some n
    | none => findEpNum rest

/-- Extraction of one episode from one fragment (imdb.py lines 270-315).
A missing title element skips the node (line 274), as does a present
rating element whose text has no whitespace token (the `split()[0]` on
line 302 raises `IndexError`, caught by the per-node handler). -/
def extractEpisode (node : EpisodeNode) : Option Episode :=
  match node.titleText with
  | none => none
  | some raw =>
    let titleText := pyStrip raw
    let nt : ℕ × String :=
      match splitChars (fun c => decide (c = '•')) titleText.data with
      | p0 :: p1 :: _ => ((findEpNum p0).getD 0, pyStrip ⟨p1⟩)
      | _ => (0, titleText)
    let plot := match node.plotText with
      | some s => pyStrip s
      | none => ""
    let airDate := match node.airDateText with
      | some s => pyStrip s
      | none => ""
    match node.ratingText with
    | none =>
      some { title := nt.2, episode_title := nt.2, episode_number := nt.1,
             plot := plot, original_air_date := airDate, rating := none }
    | some rt =>
      match (pyWords rt).head? with
      | none => none
      | some tok =>
        some { title := nt.2, episode_title := nt.2, episode_number := nt.1,
               plot := plot, original_air_date := airDate, rating := some tok }

/-- Model of `IMDb.get_season` (imdb.py lines 261-320): accumulate episodes in
document order, then sort stably by episode number ascending. -/
def get_season (season_number : ℕ) (page : SeasonPage) : SeasonRecord :=
  let episodes := scanLoop extractEpisode (fun _ => true) page.episodeNodes []
  { season_number := season_number,
    episodes := stableSortBy (fun a b => decide (a.episode_number ≤ b.episode_number)) episodes }

/-- A minimal parsed structured block for a demo show page. -/
def trivialTitleData : TitleData :=
  { name := some "Demo Show", description := some "Described plot", image := none,
    aggregateRating := none, actor := .absent, director := .absent, creator := .absent,
    datePublished := some "1999-03-31", genre := none }

/-- A show page whose episodes-header span exists but contains no
integer token. -/
def headerNoIntPage : TitlePage :=
  { ldJson := .parsed trivialTitleData, plotXl := none, castNodes := [],
    principalCreditNodes := [], seasonHeader := some "Seasons" }

/-- A show page with no episodes-header span. -/
def headerAbsentPage : TitlePage :=
  { ldJson := .parsed trivialTitleData, plotXl := none, castNodes := [],
    principalCreditNodes := [], seasonHeader := none }

/-- A show page whose episodes-header span reads `"5 Seasons"`. -/
def headerIntPage : TitlePage :=
  { ldJson := .parsed trivialTitleData, plotXl := none, castNodes := [],
    principalCreditNodes := [], seasonHeader := some "5 Seasons" }

/-- A show page whose long-form plot span exists but is blank. -/
def blankPlotShowPage : TitlePage :=
  { ldJson := .parsed trivialTitleData, plotXl := some "   ", castNodes := [],
    principalCreditNodes := [], seasonHeader := none }

/-- A movie page with a non-blank long-form plot span. -/
def plotXlMoviePage : TitlePage :=
  { ldJson := .parsed trivialTitleData, plotXl := some " Long plot. ", castNodes := [],
    principalCreditNodes := [], seasonHeader := none }

/-- The record `get_show` produces for `blankPlotShowPage`. -/
def blankShowRec : ShowRecord :=
  { title := "Demo Show", plot_outline := "", cover_url := "", rating := none,
    creators := [], cast := [], year := "1999", genres := [], num_seasons := 0 }

/-- An episodes page with no structured block and no episode fragments. -/
def noLdSeasonPage : SeasonPage := { ldJson := .missing, episodeNodes := [] }

/-- A title page whose structured block is missing. -/
def missingTitlePage : TitlePage :=
  { ldJson := .missing, plotXl := none, castNodes := [], principalCreditNodes := [],
    seasonHeader := none }

/-- A person page whose structured block fails to parse. -/
def malformedPersonPage : PersonPage :=
  { ldJson := .malformed, bioElem := none, headshotElem := none }

/-- Seven structured actor entries. -/
def sevenActors : List PersonEntry :=
  [⟨some "A1"⟩, ⟨some "A2"⟩, ⟨some "A3"⟩, ⟨some "A4"⟩, ⟨some "A5"⟩, ⟨some "A6"⟩, ⟨some "A7"⟩]

/-- The demo structured block with seven credited actors. -/
def sevenActorData : TitleData :=
  { name := some "Demo Show", description := some "Described plot", image := none,
    aggregateRating := none, actor := .many sevenActors, director := .absent,
    creator := .absent, datePublished := some "1999-03-31", genre := none }

/-- A page carrying the seven-actor structured block and no cast cards. -/
def sevenActorPage : TitlePage :=
  { ldJson := .parsed sevenActorData, plotXl := none, castNodes := [],
    principalCreditNodes := [], seasonHeader := none }

/-- The record `get_show` produces for `sevenActorPage`. -/
def sevenShowRec : ShowRecord :=
  { title := "Demo Show", plot_outline := "Described plot", cover_url := "", rating := none,
    creators := [],
    cast := [⟨"A1", none⟩, ⟨"A2", none⟩, ⟨"A3", none⟩, ⟨"A4", none⟩, ⟨"A5", none⟩,
             ⟨"A6", none⟩, ⟨"A7", none⟩],
    year := "1999", genres := [], num_seasons := 0 }

/-- A one-episode demo season page. -/
def demoSeasonPage : SeasonPage :=
  { ldJson := LdJson.missing,
    episodeNodes := [ { titleText := some "S1, Ep1 • Pilot", plotText := some "Plot.",
                        airDateText := some "Jan 1", ratingText := some "8.5 (10)" } ] }

/-- The episode extracted from `demoSeasonPage`. -/
def demoEpisode : Episode :=
  { title := "Pilot", episode_title := "Pilot", episode_number := 1, plot := "Plot.",
    original_air_date := "Jan 1", rating := some "8.5" }

/-- C6: the match scorer is total (the division is only reached with a
non-zero denominator) and its value lies within `[0, 120]`. -/
theorem match_score_total_in_range (query title : String) :
    ∃ r : ℚ, match_score query title = some r ∧ 0 ≤ r ∧ r ≤ 120 := by
  unfold match_score
  by_cases hqt : pyLower query = pyLower title
  · refine ⟨100, ?_, by norm_num, by norm_num⟩
    simp [hqt]
  · simp only [if_neg hqt]
    set qw := filteredWords (pyLower query) with hqw
    set tw := filteredWords (pyLower title) with htw
    by_cases hm : qw ∩ tw = ∅
    · exact ⟨0, by simp [hm], le_refl 0, by norm_num⟩
    · have hnonempty : (qw ∩ tw).Nonempty := Finset.nonempty_iff_ne_empty.mpr hm
      have hsub : qw ∩ tw ⊆ qw := Finset.inter_subset_left
      have hqwne : qw.Nonempty := hnonempty.mono hsub
      have hcard : qw.card ≠ 0 := Nat.pos_iff_ne_zero.mp (Finset.card_pos.mpr hqwne)
      have hcardq : (0 : ℚ) < (qw.card : ℚ) := by
        exact_mod_cast Nat.pos_of_ne_zero hcard
      have hle : ((qw ∩ tw).card : ℚ) ≤ (qw.card : ℚ) := by
        exact_mod_cast Finset.card_le_card hsub
      have hpct0 : (0 : ℚ) ≤ ((qw ∩ tw).card : ℚ) / (qw.card : ℚ) * 100 := by positivity
      have hpct100 : ((qw ∩ tw).card : ℚ) / (qw.card : ℚ) * 100 ≤ 100 := by
        have h1 : ((qw ∩ tw).card : ℚ) / (qw.card : ℚ) ≤ 1 := by
          rw [div_le_one hcardq]; exact hle
        nlinarith
      by_cases hall : (pyWords (pyLower query)).all (fun w => strContains (pyLower title) w)
      · refine ⟨((qw ∩ tw).card : ℚ) / (qw.card : ℚ) * 100 + 20, ?_, by linarith, by linarith⟩
        simp [hm, hcard, hall]
      · refine ⟨((qw ∩ tw).card : ℚ) / (qw.card : ℚ) * 100, ?_, hpct0, by linarith⟩
        simp [hm, hcard, hall]

/-- C7 counterexample: the claim says a stop-word-only query scores 0
against every title, but the exact-match branch (line 21) runs before
stop-word filtering: against the title `"the a"` the stop-word-only
query `"the a"` scores 100, not 0.  (The query is indeed stop-word-only.) -/
theorem stopword_query_claim_cex :
    ((pyWords (pyLower "the a")).all (fun w => decide (w ∈ commonWords)) = true)
    ∧ match_score "the a" "the a" = some 100
    ∧ (100 : ℚ) ≠ 0 := by
  refine ⟨by decide, by decide, by norm_num⟩

/-- C7 amended: a query all of whose case-folded whitespace tokens are
stop words scores 0 against every title **whose case-folding differs
from the folded query** (the filtered query set is empty, so the word
intersection is empty); when the case-folded strings coincide the
exact-match branch returns 100 instead. -/
theorem stopword_query_amended (q t : String)
    (hstop : ∀ w ∈ pyWords (pyLower q), w ∈ commonWords)
    (hne : pyLower q ≠ pyLower t) :
    match_score q t = some 0 := by
  have hqw : filteredWords (pyLower q) = ∅ := by
    unfold filteredWords
    have hfil : (pyWords (pyLower q)).filter (fun w => decide (w ∉ commonWords)) = [] := by
      rw [List.filter_eq_nil_iff]
      intro a ha
      simp [hstop a ha]
    rw [hfil]
    rfl
  unfold match_score
  rw [if_neg hne]
  simp [hqw]

/-- Witness for the amended C7 at the example query of the spec. -/
theorem stopword_query_amended_witness :
    match_score "the a" "Star Wars" = some 0 :=
  stopword_query_amended "the a" "Star Wars" (by decide) (by decide)

theorem insertStable_perm {γ : Type} (le : γ → γ → Bool) (c : γ) (l : List γ) :
    (insertStable le c l).Perm (c :: l) := by
  induction l with
  | nil => exact List.Perm.refl _
  | cons d ds ih =>
    simp only [insertStable]
    split
    · exact List.Perm.refl _
    · exact (List.Perm.cons d ih).trans (List.Perm.swap c d ds)

theorem mem_insertStable {γ : Type} (le : γ → γ → Bool) (c : γ) (l : List γ) {x : γ} :
    x ∈ insertStable le c l ↔ x = c ∨ x ∈ l := by
  rw [(insertStable_perm le c l).mem_iff]
  simp

theorem insertStable_pairwise {γ : Type} (le : γ → γ → Bool)
    (htrans : ∀ a b c, le a b = true → le b c = true → le a c = true)
    (htot : ∀ a b, le a b = true ∨ le b a = true)
    (c : γ) (l : List γ) (hl : l.Pairwise (fun a b => le a b = true)) :
    (insertStable le c l).Pairwise (fun a b => le a b = true) := by
  induction l with
  | nil => simp [insertStable]
  | cons d ds ih =>
    rcases List.pairwise_cons.mp hl with ⟨hd, hds⟩
    simp only [insertStable]
    split
    next h =>
      refine List.pairwise_cons.mpr ⟨?_, hl⟩
      intro x hx
      rcases List.mem_cons.mp hx with rfl | hx
      · exact h
      · exact htrans c d x h (hd x hx)
    next h =>
      refine List.pairwise_cons.mpr ⟨?_, ih hds⟩
      intro x hx
      rcases (mem_insertStable le c ds).mp hx with rfl | hx
      · cases htot x d with
        | inl h1 => exact absurd h1 h
        | inr h1 => exact h1
      · exact hd x hx

theorem filter_insertStable {γ : Type} (le : γ → γ → Bool) (p : γ → Bool)
    (hpe : ∀ a b, p a = true → p b = true → le a b = true)
    (c : γ) (l : List γ) :
    (insertStable le c l).filter p = if p c then c :: l.filter p else l.filter p := by
  induction l with
  | nil =>
    show List.filter p [c] = _
    rw [List.filter_cons]
  | cons d ds ih =>
    simp only [insertStable]
    split
    next h =>
      rw [List.filter_cons]
    next h =>
      rw [List.filter_cons, ih, List.filter_cons]
      by_cases hc : p c = true <;> by_cases hd : p d = true
      · exact absurd (hpe c d hc hd) h
      · simp [hc, hd]
      · simp [hc, hd]
      · simp [hc, hd]

theorem stableSortBy_perm {γ : Type} (le : γ → γ → Bool) (l : List γ) :
    (stableSortBy le l).Perm l := by
  induction l with
  | nil => exact List.Perm.refl _
  | cons c cs ih =>
    exact (insertStable_perm le c (stableSortBy le cs)).trans (List.Perm.cons c ih)

theorem stableSortBy_pairwise {γ : Type} (le : γ → γ → Bool)
    (htrans : ∀ a b c, le a b = true → le b c = true → le a c = true)
    (htot : ∀ a b, le a b = true ∨ le b a = true) (l : List γ) :
    (stableSortBy le l).Pairwise (fun a b => le a b = true) := by
  induction l with
  | nil => simp [stableSortBy]
  | cons c cs ih =>
    exact insertStable_pairwise le htrans htot c _ ih

theorem filter_stableSortBy {γ : Type} (le : γ → γ → Bool) (p : γ → Bool)
    (hpe : ∀ a b, p a = true → p b = true → le a b = true) (l : List γ) :
    (stableSortBy le l).filter p = l.filter p := by
  induction l with
  | nil => rfl
  | cons c cs ih =>
    show (insertStable le c (stableSortBy le cs)).filter p = _
    rw [filter_insertStable le p hpe, ih, List.filter_cons]

theorem scanLoop_eq {σ γ : Type} (f : σ → Option γ) (keep : γ → Bool)
    (items : List σ) (acc : List γ) :
    scanLoop f keep items acc = acc ++ (items.filterMap f).filter keep := by
  induction items generalizing acc with
  | nil => simp [scanLoop]
  | cons x rest ih =>
    simp only [scanLoop]
    cases hfx : f x with
    | none => simp [List.filterMap_cons, hfx, ih]
    | some c =>
      by_cases hk : keep c = true
      · simp [List.filterMap_cons, hfx, hk, ih, List.filter_cons]
      · simp [List.filterMap_cons, hfx, hk, ih, List.filter_cons]

theorem selectorRun_spec {σ γ : Type} (f : σ → Option γ) (key : γ → ℚ)
    (items : List σ) :
    (selectorRun f key items = none ↔ passing f key items = [])
    ∧ ∀ l, selectorRun f key items = some l →
        l.length ≤ 5
        ∧ l.Pairwise (fun a b => key b ≤ key a)
        ∧ (∀ c, c ∈ l → 70 ≤ key c)
        ∧ (∀ s : ℚ, ∃ rest2, l.filter (fun c => decide (key c = s)) ++ rest2
              = (passing f key items).filter (fun c => decide (key c = s)))
        ∧ ((passing f key items).length ≤ 5 → l.Perm (passing f key items))
        ∧ l.length = min 5 (passing f key items).length
        ∧ (∀ c, c ∈ passing f key items → c ∉ l → ∀ e, e ∈ l → key c ≤ key e)
        ∧ l = (stableSortBy (fun a b => decide (key b ≤ key a))
              (passing f key items)).take 5 := by
  have hres : scanLoop f (fun c => decide (70 ≤ key c)) items [] = passing f key items := by
    rw [scanLoop_eq]
    rfl
  have htrans : ∀ a b c : γ, (decide (key b ≤ key a)) = true →
      (decide (key c ≤ key b)) = true → (decide (key c ≤ key a)) = true := by
    intro a b c h1 h2
    rw [decide_eq_true_eq] at *
    exact le_trans h2 h1
  have htot : ∀ a b : γ, (decide (key b ≤ key a)) = true ∨ (decide (key a ≤ key b)) = true := by
    intro a b
    rw [decide_eq_true_eq, decide_eq_true_eq]
    exact le_total (key b) (key a)
  have hperm : (stableSortBy (fun a b => decide (key b ≤ key a)) (passing f key items)).Perm
      (passing f key items) := stableSortBy_perm _ _
  have hsort := stableSortBy_pairwise (fun a b : γ => decide (key b ≤ key a)) htrans htot
      (passing f key items)
  unfold selectorRun
  rw [hres]
  set sorted := stableSortBy (fun a b => decide (key b ≤ key a)) (passing f key items)
    with hsorted
  constructor
  · constructor
    · intro hnone
      by_cases he : sorted.isEmpty
      · have hnil : sorted = [] := List.isEmpty_iff.mp he
        have hpn : ([] : List γ).Perm (passing f key items) := hnil ▸ hperm
        exact hpn.symm.eq_nil
      · rw [if_neg he] at hnone
        exact absurd hnone (Option.some_ne_none _)
    · intro hP
      have he : sorted = [] := (hP ▸ hperm).eq_nil
      rw [if_pos (List.isEmpty_iff.mpr he)]
  · intro l hl
    have he : sorted.isEmpty = false := by
      by_contra hcon
      rw [Bool.not_eq_false] at hcon
      rw [if_pos hcon] at hl
      exact absurd hl (by simp)
    rw [if_neg (by simp [he])] at hl
    have hleq : l = sorted.take 5 := (Option.some.inj hl).symm
    subst hleq
    refine ⟨?_, ?_, ?_, ?_, ?_, ?_, ?_, ?_⟩
    · rw [List.length_take]
      exact min_le_left 5 _
    · have hpw := hsort.sublist (List.take_sublist 5 sorted)
      exact hpw.imp (fun h => of_decide_eq_true h)
    · intro c hc
      have hcs : c ∈ sorted := List.mem_of_mem_take hc
      have hcP : c ∈ passing f key items := hperm.mem_iff.mp hcs
      unfold passing at hcP
      have := (List.mem_filter.mp hcP).2
      exact of_decide_eq_true this
    · intro s
      refine ⟨(sorted.drop 5).filter (fun c => decide (key c = s)), ?_⟩
      rw [← List.filter_append, List.take_append_drop]
      exact filter_stableSortBy _ _ (by
        intro a b ha hb
        rw [decide_eq_true_eq] at *
        rw [ha, hb]) _
    · intro hPle
      have hlen : sorted.length = (passing f key items).length := hperm.length_eq
      have htake : sorted.take 5 = sorted := List.take_of_length_le (by omega)
      rw [htake]
      exact hperm
    · rw [List.length_take, hperm.length_eq]
    · intro c hcP hcnot e he
      have hcs : c ∈ sorted := hperm.mem_iff.mpr hcP
      have hcsplit : c ∈ sorted.take 5 ++ sorted.drop 5 := by
        rw [List.take_append_drop]
        exact hcs
      rcases List.mem_append.mp hcsplit with hc1 | hc2
      · exact absurd hc1 hcnot
      · have hpw2 : (sorted.take 5 ++ sorted.drop 5).Pairwise
            (fun a b => (decide (key b ≤ key a)) = true) := by
          rw [List.take_append_drop]
          exact hsort
        have h3 := (List.pairwise_append.mp hpw2).2.2
        exact of_decide_eq_true (h3 e he c hc2)
    · rfl

/-- C1: movie and person search drop every candidate scoring below 70;
give `none` (not `some []`) exactly when no candidate passes; and
otherwise the returned list is exactly the stable descending sort of
the passing candidates truncated to five: it has `min 5 |passing|`
entries (so exactly five when more than five pass), is sorted
descending by score, stably — for each score value the returned
candidates of that score are a prefix of the passing candidates of that
score in document order — contains only the top scorers (no excluded
passing candidate outscores a returned one), and is a permutation of
all passing candidates whenever at most five pass. -/
theorem movie_person_search_select_spec (query : String) (items : List SearchItem) :
    ((search_movie query items = none ↔ moviePassing query items = [])
      ∧ ∀ l, search_movie query items = some l →
          l.length ≤ 5
          ∧ l.Pairwise (fun a b => b.match_score ≤ a.match_score)
          ∧ (∀ c, c ∈ l → 70 ≤ c.match_score)
          ∧ (∀ s : ℚ, ∃ rest2, l.filter (fun c => decide (c.match_score = s)) ++ rest2
                = (moviePassing query items).filter (fun c => decide (c.match_score = s)))
          ∧ ((moviePassing query items).length ≤ 5 → l.Perm (moviePassing query items))
          ∧ l.length = min 5 (moviePassing query items).length
          ∧ (∀ c, c ∈ moviePassing query items → c ∉ l →
                ∀ e, e ∈ l → c.match_score ≤ e.match_score)
          ∧ l = (stableSortBy (fun a b => decide (b.match_score ≤ a.match_score))
                (moviePassing query items)).take 5)
    ∧ ((search_person query items = none ↔ personPassing query items = [])
      ∧ ∀ l, search_person query items = some l →
          l.length ≤ 5
          ∧ l.Pairwise (fun a b => b.match_score ≤ a.match_score)
          ∧ (∀ c, c ∈ l → 70 ≤ c.match_score)
          ∧ (∀ s : ℚ, ∃ rest2, l.filter (fun c => decide (c.match_score = s)) ++ rest2
                = (personPassing query items).filter (fun c => decide (c.match_score = s)))
          ∧ ((personPassing query items).length ≤ 5 → l.Perm (personPassing query items))
          ∧ l.length = min 5 (personPassing query items).length
          ∧ (∀ c, c ∈ personPassing query items → c ∉ l →
                ∀ e, e ∈ l → c.match_score ≤ e.match_score)
          ∧ l = (stableSortBy (fun a b => decide (b.match_score ≤ a.match_score))
                (personPassing query items)).take 5) :=
  ⟨selectorRun_spec (movieItemCandidate query) MovieCandidate.match_score items,
   selectorRun_spec (personItemCandidate query) PersonCandidate.match_score items⟩

/-- C2: TV search returns exactly the successfully extracted candidates,
in document order — no threshold, no ranking by score, no truncation. -/
theorem tv_search_returns_all_in_order (items : List SearchItem) :
    search_tv items = items.filterMap tvItemCandidate
    ∧ (search_tv items).length = (items.filterMap tvItemCandidate).length := by
  have h : search_tv items = items.filterMap tvItemCandidate := by
    unfold search_tv
    rw [scanLoop_eq]
    simp
  exact ⟨h, by rw [h]⟩

/-- Witness for C1 at concrete queries and node lists: both searches
return a candidate list the spec theorem applies to, and on a page
where six candidates pass the returned list has exactly five entries. -/
theorem movie_person_search_select_spec_witness :
    search_movie "George Lucas" demoSearchItems = some [demoMovieCandidate]
    ∧ [demoMovieCandidate].length ≤ 5
    ∧ search_person "George Lucas" demoSearchItems = some [demoPersonCandidate]
    ∧ 70 ≤ demoPersonCandidate.match_score
    ∧ search_movie "George Lucas" sixMovieItems = some sixTopFive
    ∧ (moviePassing "George Lucas" sixMovieItems).length = 6
    ∧ sixTopFive.length = min 5 (moviePassing "George Lucas" sixMovieItems).length := by
  have h := movie_person_search_select_spec "George Lucas" demoSearchItems
  have h6 := movie_person_search_select_spec "George Lucas" sixMovieItems
  exact ⟨by decide, (h.1.2 [demoMovieCandidate] (by decide)).1, by decide,
    (h.2.2 [demoPersonCandidate] (by decide)).2.2.1 demoPersonCandidate (by decide),
    by decide, by decide,
    (h6.1.2 sixTopFive (by decide)).2.2.2.2.2.1⟩

theorem alignPeople_length (nodes : List (Option (Option String))) :
    ∀ (i : ℕ) (ps : List PersonEntry), (alignPeople nodes i ps).length = ps.length := by
  intro i ps
  induction ps generalizing i with
  | nil => rfl
  | cons p ps ih => simp [alignPeople, ih]

/-- Decomposition of a successful `get_show`: the fields of the record,
whatever the season-header branch taken. -/
theorem get_show_parts (p : TitlePage) (d : TitleData) (hp : p.ldJson = .parsed d)
    (r : ShowRecord) (hr : get_show p = some r) :
    r.plot_outline = (match p.plotXl with
      | some s => pyStrip s
      | none => d.description.getD "")
    ∧ r.cast = alignPeople p.castNodes 0 ((peopleList d.actor).take 10)
    ∧ r.creators = alignPeople p.principalCreditNodes 0 (peopleList d.creator) := by
  simp only [get_show, hp] at hr
  split at hr
  · obtain rfl := Option.some.inj hr
    exact ⟨rfl, rfl, rfl⟩
  · split at hr
    · exact absurd hr (by simp)
    · obtain rfl := Option.some.inj hr
      exact ⟨rfl, rfl, rfl⟩

/-- C3 counterexample: the claim says a present header element without
an integer defaults the season count to 0 without failing the lookup,
but on such a page (otherwise fully well-formed) `get_show` returns the
absent result: the `int(...group())` chain at line 210 raises on the
failed search and the fetcher-wide handler converts it to `None`. -/
theorem show_season_count_claim_cex :
    headerNoIntPage.ldJson = LdJson.parsed trivialTitleData
    ∧ headerNoIntPage.seasonHeader = some "Seasons"
    ∧ firstInt "Seasons" = none
    ∧ get_show headerNoIntPage = none := by
  exact ⟨rfl, rfl, by decide, by decide⟩

/-- C3 amended: on a page whose structured block parses, the season
count is the first integer token of the header text; it
defaults to 0 when the header element is absent; but when the element
is present without an integer, the whole lookup fails with the absent
result. -/
theorem show_season_count_amended (p : TitlePage) (d : TitleData)
    (hp : p.ldJson = .parsed d) :
    (p.seasonHeader = none → (get_show p).map (fun r => r.num_seasons) = some 0)
    ∧ (∀ txt k, p.seasonHeader = some txt → firstInt txt = some k →
        (get_show p).map (fun r => r.num_seasons) = some k)
    ∧ (∀ txt, p.seasonHeader = some txt → firstInt txt = none → get_show p = none) := by
  refine ⟨?_, ?_, ?_⟩
  · intro hh
    simp [get_show, hp, hh]
  · intro txt k hh hk
    simp [get_show, hp, hh, hk]
  · intro txt hh hk
    simp [get_show, hp, hh, hk]

/-- Witness for the amended C3 on three concrete show pages. -/
theorem show_season_count_amended_witness :
    ((get_show headerAbsentPage).map (fun r => r.num_seasons) = some 0)
    ∧ ((get_show headerIntPage).map (fun r => r.num_seasons) = some 5)
    ∧ get_show headerNoIntPage = none := by
  have h1 := show_season_count_amended headerAbsentPage trivialTitleData rfl
  have h2 := show_season_count_amended headerIntPage trivialTitleData rfl
  have h3 := show_season_count_amended headerNoIntPage trivialTitleData rfl
  exact ⟨h1.1 rfl, h2.2.1 "5 Seasons" 5 rfl (by decide), h3.2.2 "Seasons" rfl (by decide)⟩

/-- C4 counterexample: the claim says a present-but-empty long-form
plot span falls back to the structured description for movie and show
alike, but `get_show` (line 206) tests only element presence: on a show
page whose span strips to the empty string the plot comes out empty,
not as the description `"Described plot"`. -/
theorem plot_resolution_claim_cex :
    blankPlotShowPage.plotXl = some "   "
    ∧ pyStrip "   " = ""
    ∧ trivialTitleData.description = some "Described plot"
    ∧ (get_show blankPlotShowPage).map (fun r => r.plot_outline) = some ""
    ∧ ("" : String) ≠ "Described plot" := by
  exact ⟨rfl, by decide, rfl, by decide, by decide⟩

/-- C4 amended: on a page whose structured block parses, `get_movie`
resolves the plot as the claim states (stripped span text when the span
is present and non-blank, the structured description otherwise — in
particular for a present-but-blank span); `get_show` instead uses the
stripped span text whenever the span is present, even blank, and falls
back to the description only when the span is absent. -/
theorem plot_resolution_amended (p : TitlePage) (d : TitleData)
    (hp : p.ldJson = .parsed d) :
    (∀ s, p.plotXl = some s → pyStrip s ≠ "" →
        (get_movie p).map (fun r => r.plot_outline) = some (pyStrip s))
    ∧ (∀ s, p.plotXl = some s → pyStrip s = "" →
        (get_movie p).map (fun r => r.plot_outline) = some (d.description.getD ""))
    ∧ (p.plotXl = none →
        (get_movie p).map (fun r => r.plot_outline) = some (d.description.getD ""))
    ∧ (∀ r s, get_show p = some r → p.plotXl = some s → r.plot_outline = pyStrip s)
    ∧ (∀ r, get_show p = some r → p.plotXl = none → r.plot_outline = d.description.getD "") := by
  refine ⟨?_, ?_, ?_, ?_, ?_⟩
  · intro s hs hne
    simp [get_movie, hp, hs, hne]
  · intro s hs heq
    simp [get_movie, hp, hs, heq]
  · intro hs
    simp [get_movie, hp, hs]
  · intro r s hr hs
    have h := (get_show_parts p d hp r hr).1
    rw [h, hs]
  · intro r hr hs
    have h := (get_show_parts p d hp r hr).1
    rw [h, hs]

/-- Witness for the amended C4 on concrete pages: a non-blank
span, a blank span (movie and show), and an absent span. -/
theorem plot_resolution_amended_witness :
    ((get_movie plotXlMoviePage).map (fun r => r.plot_outline) = some "Long plot.")
    ∧ ((get_movie blankPlotShowPage).map (fun r => r.plot_outline) = some "Described plot")
    ∧ ((get_movie headerAbsentPage).map (fun r => r.plot_outline) = some "Described plot")
    ∧ blankShowRec.plot_outline = pyStrip "   " := by
  have h1 := plot_resolution_amended plotXlMoviePage trivialTitleData rfl
  have h2 := plot_resolution_amended blankPlotShowPage trivialTitleData rfl
  have h3 := plot_resolution_amended headerAbsentPage trivialTitleData rfl
  exact ⟨h1.1 " Long plot. " rfl (by decide), h2.2.1 "   " rfl (by decide),
    h3.2.2.1 rfl, h2.2.2.2.1 blankShowRec "   " (by decide) rfl⟩

/-- C5 counterexample: the claim says every detail fetcher — including
`get_season` — returns the absent result when the structured block is
missing, but `get_season` never inspects the block: on a page with no
block it still returns a season record. -/
theorem season_fetch_not_found_cex :
    noLdSeasonPage.ldJson = LdJson.missing
    ∧ get_season 2 noLdSeasonPage = { season_number := 2, episodes := [] } := by
  exact ⟨rfl, by decide⟩

/-- C5 amended: `get_movie`, `get_show` and `get_person` return the
absent result when the structured block is missing — and equally when
its content fails to parse, so a missing block is not the sole fatal
condition (`get_show` moreover fails on an unparsable season header,
per C3) — while `get_season` never inspects the block and always
returns a record. -/
theorem detail_not_found_amended :
    (∀ p : TitlePage, p.ldJson = .missing ∨ p.ldJson = .malformed →
        get_movie p = none ∧ get_show p = none)
    ∧ (∀ p : PersonPage, p.ldJson = .missing ∨ p.ldJson = .malformed →
        get_person p = none)
    ∧ (∀ (n : ℕ) (p : SeasonPage), (get_season n p).season_number = n) := by
  refine ⟨?_, ?_, ?_⟩
  · intro p hp
    rcases hp with hp | hp <;> exact ⟨by simp [get_movie, hp], by simp [get_show, hp]⟩
  · intro p hp
    rcases hp with hp | hp <;> simp [get_person, hp]
  · intro n p
    rfl

/-- Witness for the amended C5 on concrete pages. -/
theorem detail_not_found_amended_witness :
    get_movie missingTitlePage = none
    ∧ get_show missingTitlePage = none
    ∧ get_person malformedPersonPage = none
    ∧ (get_season 4 noLdSeasonPage).season_number = 4 := by
  have h := detail_not_found_amended
  exact ⟨(h.1 missingTitlePage (Or.inl rfl)).1, (h.1 missingTitlePage (Or.inl rfl)).2,
    h.2.1 malformedPersonPage (Or.inr rfl), h.2.2 4 noLdSeasonPage⟩

/-- C8: for every parsed page, the reconciled movie cast has
`min (actors, 5)` entries (so at most 5), the show cast `min (actors, 10)`
(so at most 10), while director and creator lists are never truncated;
in particular 7 structured actors yield exactly 5 cast entries for a
movie and all 7 for a show. -/
theorem cast_caps_spec (p : TitlePage) (d : TitleData) (hp : p.ldJson = .parsed d) :
    ((get_movie p).map (fun r => r.cast.length) = some (min (peopleList d.actor).length 5))
    ∧ ((get_movie p).map (fun r => r.directors.length) = some (peopleList d.director).length)
    ∧ (∀ r, get_show p = some r →
        r.cast.length = min (peopleList d.actor).length 10
        ∧ r.creators.length = (peopleList d.creator).length)
    ∧ (∀ r, get_movie p = some r → r.cast.length ≤ 5)
    ∧ (∀ r, get_show p = some r → r.cast.length ≤ 10)
    ∧ ((peopleList d.actor).length = 7 →
        ((get_movie p).map (fun r => r.cast.length) = some 5)
        ∧ (∀ r, get_show p = some r → r.cast.length = 7)) := by
  have hmv : (get_movie p).map (fun r => r.cast.length)
      = some (min (peopleList d.actor).length 5) := by
    simp [get_movie, hp, alignPeople_length, List.length_take, Nat.min_comm]
  have hsh : ∀ r, get_show p = some r →
      r.cast.length = min (peopleList d.actor).length 10
      ∧ r.creators.length = (peopleList d.creator).length := by
    intro r hr
    obtain ⟨-, hc, hcr⟩ := get_show_parts p d hp r hr
    constructor
    · rw [hc, alignPeople_length, List.length_take, Nat.min_comm]
    · rw [hcr, alignPeople_length]
  refine ⟨hmv, ?_, hsh, ?_, ?_, ?_⟩
  · simp [get_movie, hp, alignPeople_length]
  · intro r hr
    have : (get_movie p).map (fun r => r.cast.length) = some r.cast.length := by
      rw [hr]
      rfl
    rw [this] at hmv
    have := Option.some.inj hmv
    omega
  · intro r hr
    have := (hsh r hr).1
    omega
  · intro h7
    constructor
    · rw [hmv, h7]
      decide
    · intro r hr
      have := (hsh r hr).1
      rw [h7] at this
      omega

/-- Witness for C8 on the seven-actor example of the spec. -/
theorem cast_caps_spec_witness :
    (peopleList sevenActorData.actor).length = 7
    ∧ ((get_movie sevenActorPage).map (fun r => r.cast.length) = some 5)
    ∧ get_show sevenActorPage = some sevenShowRec
    ∧ sevenShowRec.cast.length = 7 := by
  have h := cast_caps_spec sevenActorPage sevenActorData rfl
  exact ⟨by decide, (h.2.2.2.2.2 (by decide)).1, by decide,
    (h.2.2.2.2.2 (by decide)).2 sevenShowRec (by decide)⟩

/-- C9: the episode list attached by `get_season` is sorted ascending by
parsed episode number; it is a permutation of the successfully extracted
episodes; and stably so — for every episode number the episodes carrying
that number appear exactly as in document order. -/
theorem season_episodes_sorted_stable (n : ℕ) (p : SeasonPage) :
    (get_season n p).episodes.Pairwise (fun a b => a.episode_number ≤ b.episode_number)
    ∧ (get_season n p).episodes.Perm (p.episodeNodes.filterMap extractEpisode)
    ∧ ∀ m : ℕ, (get_season n p).episodes.filter (fun e => decide (e.episode_number = m))
        = (p.episodeNodes.filterMap extractEpisode).filter
            (fun e => decide (e.episode_number = m)) := by
  have hloop : scanLoop extractEpisode (fun _ => true) p.episodeNodes []
      = p.episodeNodes.filterMap extractEpisode := by
    rw [scanLoop_eq]
    simp
  have htrans : ∀ a b c : Episode, decide (a.episode_number ≤ b.episode_number) = true →
      decide (b.episode_number ≤ c.episode_number) = true →
      decide (a.episode_number ≤ c.episode_number) = true := by
    intro a b c h1 h2
    rw [decide_eq_true_eq] at *
    omega
  have htot : ∀ a b : Episode, decide (a.episode_number ≤ b.episode_number) = true
      ∨ decide (b.episode_number ≤ a.episode_number) = true := by
    intro a b
    rw [decide_eq_true_eq, decide_eq_true_eq]
    omega
  refine ⟨?_, ?_, ?_⟩
  · have h := stableSortBy_pairwise (fun a b : Episode =>
      decide (a.episode_number ≤ b.episode_number)) htrans htot
      (scanLoop extractEpisode (fun _ => true) p.episodeNodes [])
    exact h.imp (fun hab => of_decide_eq_true hab)
  · show (stableSortBy _ (scanLoop extractEpisode (fun _ => true) p.episodeNodes [])).Perm _
    rw [hloop]
    exact stableSortBy_perm _ _
  · intro m
    show (stableSortBy _ (scanLoop extractEpisode (fun _ => true) p.episodeNodes [])).filter _ = _
    rw [hloop, filter_stableSortBy]
    intro a b ha hb
    rw [decide_eq_true_eq] at ha hb
    rw [decide_eq_true_eq]
    omega

/-- A successfully extracted episode always carries an `episode_title`
equal to its `title` (both are set from the same parsed value,
imdb.py lines 305-306). -/
theorem extractEpisode_title_eq (node : EpisodeNode) (e : Episode)
    (h : extractEpisode node = some e) : e.episode_title = e.title := by
  simp only [extractEpisode] at h
  split at h
  · exact absurd h (by simp)
  · split at h
    · obtain rfl := Option.some.inj h
      rfl
    · split at h
      · exact absurd h (by simp)
      · obtain rfl := Option.some.inj h
        rfl

/-- C10: every episode record emitted by `get_season` carries the extra
`episode_title` field with a value equal to its `title` field. -/
theorem episode_title_field_duplicate (n : ℕ) (p : SeasonPage) :
    ∀ e, e ∈ (get_season n p).episodes → e.episode_title = e.title := by
  intro e he
  have hloop : scanLoop extractEpisode (fun _ => true) p.episodeNodes []
      = p.episodeNodes.filterMap extractEpisode := by
    rw [scanLoop_eq]
    simp
  have hperm := stableSortBy_perm (fun a b : Episode =>
    decide (a.episode_number ≤ b.episode_number))
    (scanLoop extractEpisode (fun _ => true) p.episodeNodes [])
  have hm : e ∈ p.episodeNodes.filterMap extractEpisode := by
    rw [← hloop]
    exact hperm.mem_iff.mp he
  obtain ⟨node, -, hex⟩ := List.mem_filterMap.mp hm
  exact extractEpisode_title_eq node e hex

/-- Witness for C10 on a concrete season page. -/
theorem episode_title_field_duplicate_witness :
    demoEpisode ∈ (get_season 1 demoSeasonPage).episodes
    ∧ demoEpisode.episode_title = demoEpisode.title :=
  ⟨by decide, episode_title_field_duplicate 1 demoSeasonPage demoEpisode (by decide)⟩
